import Mathlib

/-!
Shallow embedding of the dip-buy strategy checker of awakzdev/finance
(src/__tests__/test_strategy.py) together with the row normalizer
read_transaction_log.  Python float values are modelled as exact
rationals (ℚ); Python lists are Lean lists with append at the end and
pop from the end, mirroring list.append / list.pop.  Fallible Python
operations (uncaught exceptions) are modelled with Except.
-/

namespace Finance

/-! ### Numeric string coercion: model of Python float(s) on decimal literals

Python float(s) strips surrounding whitespace, accepts an optional sign
and a decimal literal (digits, digits.digits, .digits or digits.), and
raises ValueError otherwise.  Exponent notation and inf/nan are not
exercised by the data and are omitted from the model (they would parse
to numbers, not change any skip/crash behaviour for textual cells). -/

def splitOnChar (c : Char) : List Char → List (List Char)
  | [] => [[]]
  | x :: xs =>
    if x = c then [] :: splitOnChar c xs
    else
      match splitOnChar c xs with
      | [] => [[x]]
      | g :: gs => (x :: g) :: gs

/-- The numeric value of a nonempty all-digit character run, none
otherwise. -/
def digitsToNat? (l : List Char) : Option ℕ :=
  if l ≠ [] ∧ l.all Char.isDigit then
    some (l.foldl (fun n c => n * 10 + (c.toNat - 48)) 0)
  else none

/-- str.strip for the ASCII data at hand: drop whitespace from both
ends. -/
def trimChars (l : List Char) : List Char :=
  ((l.dropWhile Char.isWhitespace).reverse.dropWhile Char.isWhitespace).reverse

/-- str.lower for the ASCII data at hand. -/
def lowerString (s : String) : String :=
  ⟨s.data.map Char.toLower⟩

def parseUnsignedChars? (l : List Char) : Option ℚ :=
  match splitOnChar '.' l with
  | [a] => (digitsToNat? a).map (fun n => (n : ℚ))
  | [a, b] =>
    if a.length + b.length = 0 then none
    else if a.all Char.isDigit ∧ b.all Char.isDigit then
      some (((digitsToNat? a).getD 0 : ℚ) + ((digitsToNat? b).getD 0 : ℚ) / 10 ^ b.length)
    else none
  | _ => none

def parseFloat? (s : String) : Option ℚ :=
  match trimChars s.data with
  | '-' :: rest => (parseUnsignedChars? rest).map (fun q => -q)
  | '+' :: rest => parseUnsignedChars? rest
  | t => parseUnsignedChars? t

/-! ### Calendar dates: model of datetime.strptime(s, "%d/%m/%Y") -/

structure Date where
  day : ℕ
  month : ℕ
  year : ℕ
  deriving DecidableEq, Repr

def isLeapYear (y : ℕ) : Bool :=
  y % 4 = 0 ∧ (y % 100 ≠ 0 ∨ y % 400 = 0)

def monthDays (leap : Bool) (m : ℕ) : ℕ :=
  match m with
  | 1 => 31
  | 2 => if leap then 29 else 28
  | 3 => 31
  | 4 => 30
  | 5 => 31
  | 6 => 30
  | 7 => 31
  | 8 => 31
  | 9 => 30
  | 10 => 31
  | 11 => 30
  | 12 => 31
  | _ => 0

def daysBeforeMonth (leap : Bool) (m : ℕ) : ℕ :=
  (List.range (m - 1)).foldl (fun acc i => acc + monthDays leap (i + 1)) 0

/-- Day number of a date in the proleptic Gregorian calendar, as
datetime.date.toordinal computes it: day 1 is 01/01/0001.  Differences
of ordinals are exactly the .days of datetime subtraction. -/
def toOrdinal (d : Date) : ℕ :=
  365 * (d.year - 1) + (d.year - 1) / 4 - (d.year - 1) / 100 + (d.year - 1) / 400
    + daysBeforeMonth (isLeapYear d.year) d.month + d.day

/-- strptime with format %d/%m/%Y: day and month are 1-2 digits, year is
1-4 digits, separators are literal; the parsed numbers must form a real
calendar date (datetime validates ranges, including leap days). -/
def parseDate? (s : String) : Option Date :=
  match splitOnChar '/' s.data with
  | [ds, ms, ys] =>
    if 1 ≤ ds.length ∧ ds.length ≤ 2 ∧ 1 ≤ ms.length ∧ ms.length ≤ 2
        ∧ 1 ≤ ys.length ∧ ys.length ≤ 4 then
      match digitsToNat? ds, digitsToNat? ms, digitsToNat? ys with
      | some d, some m, some y =>
        if 1 ≤ y ∧ 1 ≤ m ∧ m ≤ 12 ∧ 1 ≤ d ∧ d ≤ monthDays (isLeapYear y) m then
          some ⟨d, m, y⟩
        else none
      | _, _, _ => none
    else none
  | _ => none

/-! ### The raw CSV rows and the normalizer read_transaction_log

A raw row is the dict csv.DictReader yields: column name paired with the
cell value, where a missing trailing cell is None (modelled as the inner
none).  Column names are compared after fieldname normalization
(strip + lower), exactly as lines 22 and 26 of the source apply it. -/

def RawRow : Type := List (String × Option String)

def rowFind (row : RawRow) (key : String) : Option (Option String) :=
  (row.find? (fun p => lowerString ⟨trimChars p.1.data⟩ == key)).map (fun p => p.2)

structure Tx where
  date : String
  low_price : ℚ
  highest_peak : ℚ
  date_obj : Date
  action : Option String
  deriving DecidableEq, Repr

inductive ReadErr where
  /-- float(...) raised ValueError on a non-numeric, non-empty cell
  (lines 33-34): uncaught, aborts the run. -/
  | numericCoercion : ReadErr
  /-- strptime received a None date cell (line 38 raises TypeError,
  which the except ValueError clause does not catch): aborts the run. -/
  | dateTypeError : ReadErr
  deriving DecidableEq, Repr

/-- One row of the loop body of read_transaction_log (lines 24-42):
ok none = row silently skipped, ok (some tx) = row kept,
error = uncaught exception.  The checks follow the source order: the
presence/emptiness tests of line 29 first (short-circuit left to
right), then float coercion of low price and highest peak (lines
33-34), then the date parse guarded only against ValueError
(lines 37-40). -/
def readRow (row : RawRow) : Except ReadErr (Option Tx) :=
  match rowFind row "date" with
  | none => .ok none
  | some dv =>
    match rowFind row "low price" with
    | none => .ok none
    | some none => .ok none
    | some (some ls) =>
      if ls = "" then .ok none
      else
        match rowFind row "highest peak" with
        | none => .ok none
        | some none => .ok none
        | some (some ps) =>
          if ps = "" then .ok none
          else
            match parseFloat? ls with
            | none => .error .numericCoercion
            | some lowq =>
              match parseFloat? ps with
              | none => .error .numericCoercion
              | some peakq =>
                match dv with
                | none => .error .dateTypeError
                | some ds =>
                  match parseDate? ds with
                  | none => .ok none
                  | some dobj =>
                    .ok (some { date := ds
                              , low_price := lowq
                              , highest_peak := peakq
                              , date_obj := dobj
                              , action := (rowFind row "action").join })

def readTransactionLog : List RawRow → Except ReadErr (List Tx)
  | [] => .ok []
  | row :: rest =>
    match readRow row with
    | .error e => .error e
    | .ok none => readTransactionLog rest
    | .ok (some tx) =>
      match readTransactionLog rest with
      | .error e => .error e
      | .ok txs => .ok (tx :: txs)

/-! ### The simulator state of test_buy_signal (lines 45-109)

INITIAL_CASH and INVESTMENT_PER_BUY are the module constants of
lines 10-11.  active_investments mirrors the Python list: append adds
at the end, pop removes from the end. -/

def INITIAL_CASH : ℚ := 5000

def INVESTMENT_PER_BUY : ℚ := 5000

structure Investment where
  price : ℚ
  date : String
  amount : ℚ
  deriving DecidableEq, Repr

structure SimState where
  failed_buys : ℕ
  passed_buys : ℕ
  active_investments : List Investment
  original_highest_peak : Option ℚ
  stocks_sold : Bool
  last_purchase_price : Option ℚ
  cash_balance : ℚ
  deriving DecidableEq, Repr

/-- The initial bindings of lines 50-56: counters zero, no investments,
peak and last purchase price None, stocks_sold True, cash = INITIAL_CASH. -/
def initialState : SimState :=
  { failed_buys := 0
  , passed_buys := 0
  , active_investments := []
  , original_highest_peak := none
  , stocks_sold := true
  , last_purchase_price := none
  , cash_balance := INITIAL_CASH }

inductive SimErr where
  /-- transactions[0] on an empty list raises IndexError (line 58). -/
  | emptyLog : SimErr
  /-- tx['action'] raises KeyError when the column is absent, and
  .lower() raises AttributeError when the cell is None (line 68). -/
  | missingAction : SimErr
  /-- last_purchase_price is still None when the trigger is computed
  (line 78 would raise TypeError); unreachable from the initial state. -/
  | noAnchor : SimErr
  deriving DecidableEq, Repr

/-- Lines 71-74: when stocks_sold, anchor original_highest_peak to the
record's highest peak, initialize last_purchase_price to it, and clear
the flag. -/
def anchorState (s : SimState) (tx : Tx) : SimState :=
  if s.stocks_sold then
    { s with original_highest_peak := some tx.highest_peak
           , last_purchase_price := some tx.highest_peak
           , stocks_sold := false }
  else s

/-- Lines 77-78: trigger_price = last_purchase_price * 0.95 ** (len(active_investments) + 1). -/
def triggerPrice (lastPurchase : ℚ) (numOpen : ℕ) : ℚ :=
  lastPurchase * (0.95 : ℚ) ^ (numOpen + 1)

/-- The trigger the simulator would compute at a state, none when
last_purchase_price is still None. -/
def currentTrigger (s : SimState) : Option ℚ :=
  s.last_purchase_price.map (fun p => triggerPrice p s.active_investments.length)

/-- Lines 81-94: the buy evaluation.  Inside the trigger and cash
guards, a recorded buy pushes an investment of INVESTMENT_PER_BUY,
moves last_purchase_price to the day's low and debits the cash; any
other recorded action counts a failed buy; insufficient cash only
logs. -/
def buyEval (s : SimState) (tx : Tx) (action : String) (trigger : ℚ) : SimState :=
  if tx.low_price ≤ trigger then
    if INVESTMENT_PER_BUY ≤ s.cash_balance then
      if action = "buy" then
        { s with passed_buys := s.passed_buys + 1
               , active_investments :=
                   s.active_investments
                     ++ [{ price := tx.low_price, date := tx.date, amount := INVESTMENT_PER_BUY }]
               , last_purchase_price := some tx.low_price
               , cash_balance := s.cash_balance - INVESTMENT_PER_BUY }
      else { s with failed_buys := s.failed_buys + 1 }
    else s
  else s

/-- Lines 97-103: the sell evaluation.  On action sell with a nonempty
stack, pop the most recent investment, credit its amount back, and when
the stack becomes empty set stocks_sold. -/
def sellEval (s : SimState) (action : String) : SimState :=
  match s.active_investments.getLast? with
  | none => s
  | some last =>
    if action = "sell" then
      { s with active_investments := s.active_investments.dropLast
             , cash_balance := s.cash_balance + last.amount
             , stocks_sold :=
                 if s.active_investments.dropLast = [] then true else s.stocks_sold }
    else s

/-- The body of the per-record loop (lines 66-103), minus the window
filter: read the action (line 68, crashes when absent or None), anchor
the campaign, compute the trigger and run buy then sell evaluation. -/
def stepTx (s : SimState) (tx : Tx) : Except SimErr SimState :=
  match tx.action with
  | none => .error .missingAction
  | some act =>
    match currentTrigger (anchorState s tx) with
    | none => .error .noAnchor
    | some trigger =>
      .ok (sellEval (buyEval (anchorState s tx) tx (lowerString act) trigger) (lowerString act))

/-- One loop iteration including the window filter of lines 62-64:
records more than 730 days past the start date are skipped with
continue. -/
def processTx (startOrd : ℕ) (s : SimState) (tx : Tx) : Except SimErr SimState :=
  if (toOrdinal tx.date_obj : ℤ) - (startOrd : ℤ) > 730 then .ok s
  else stepTx s tx

def runFrom (startOrd : ℕ) (s : SimState) : List Tx → Except SimErr SimState
  | [] => .ok s
  | tx :: rest =>
    match processTx startOrd s tx with
    | .error e => .error e
    | .ok s' => runFrom startOrd s' rest

/-- The whole of test_buy_signal after reading the log: line 58 indexes
transactions[0] (IndexError on an empty log), then the loop folds over
every transaction. -/
def simulate (txs : List Tx) : Except SimErr SimState :=
  match txs with
  | [] => .error .emptyLog
  | t0 :: _ => runFrom (toOrdinal t0.date_obj) initialState txs

/-- The states reached after each processed record, for stating
per-step invariants of the fold. -/
def traceFrom (startOrd : ℕ) (s : SimState) : List Tx → List SimState
  | [] => []
  | tx :: rest =>
    match processTx startOrd s tx with
    | .error _ => []
    | .ok s' => s' :: traceFrom startOrd s' rest

def simTrace (txs : List Tx) : List SimState :=
  match txs with
  | [] => []
  | t0 :: _ => traceFrom (toOrdinal t0.date_obj) initialState txs

inductive RunErr where
  | readErr : ReadErr → RunErr
  | simErr : SimErr → RunErr
  deriving DecidableEq, Repr

/-- The full pipeline of the test: normalize the raw rows, then run the
simulator over the result. -/
def runAll (raws : List RawRow) : Except RunErr SimState :=
  match readTransactionLog raws with
  | .error e => .error (.readErr e)
  | .ok txs =>
    match simulate txs with
    | .error e => .error (.simErr e)
    | .ok s => .ok s

/-! ### Concrete inputs used in the scenarios -/

def row94 : RawRow :=
  [("Date", some "01/01/2020"), ("Low Price", some "94"),
   ("Highest Peak", some "100"), ("Action", some "Buy")]

def row96 : RawRow :=
  [("Date", some "01/01/2020"), ("Low Price", some "96"),
   ("Highest Peak", some "100"), ("Action", some "Buy")]

def rowBad : RawRow :=
  [("Date", some "01/01/2020"), ("Low Price", some "abc"),
   ("Highest Peak", some "100"), ("Action", some "Buy")]

def rowNeg : RawRow :=
  [("Date", some "01/01/2020"), ("Low Price", some "-5"),
   ("Highest Peak", some "100"), ("Action", some "Hold")]

def rowLater : RawRow :=
  [("Date", some "02/01/2020"), ("Low Price", some "5"),
   ("Highest Peak", some "100"), ("Action", some "Hold")]

def rowNoAct : RawRow :=
  [("Date", some "01/01/2020"), ("Low Price", some "94"),
   ("Highest Peak", some "100")]

def rowEmptyLow : RawRow :=
  [("Date", some "01/01/2020"), ("Low Price", some ""),
   ("Highest Peak", some "100"), ("Action", some "Buy")]

def tx94 : Tx :=
  { date := "01/01/2020", low_price := 94, highest_peak := 100
  , date_obj := ⟨1, 1, 2020⟩, action := some "Buy" }

def tx96 : Tx :=
  { date := "01/01/2020", low_price := 96, highest_peak := 100
  , date_obj := ⟨1, 1, 2020⟩, action := some "Buy" }

def txNeg : Tx :=
  { date := "01/01/2020", low_price := -5, highest_peak := 100
  , date_obj := ⟨1, 1, 2020⟩, action := some "Hold" }

def txLater : Tx :=
  { date := "02/01/2020", low_price := 5, highest_peak := 100
  , date_obj := ⟨2, 1, 2020⟩, action := some "Hold" }

def txNoAct : Tx :=
  { date := "01/01/2020", low_price := 94, highest_peak := 100
  , date_obj := ⟨1, 1, 2020⟩, action := none }

def txSell : Tx :=
  { date := "02/01/2020", low_price := 100, highest_peak := 100
  , date_obj := ⟨2, 1, 2020⟩, action := some "Sell" }

def txSellLow : Tx :=
  { date := "01/01/2020", low_price := 94, highest_peak := 100
  , date_obj := ⟨1, 1, 2020⟩, action := some "Sell" }

def invA : Investment := { price := 94, date := "01/01/2020", amount := 5000 }

/-- The state after Scenario A's single buy. -/
def s194 : SimState :=
  { failed_buys := 0, passed_buys := 1, active_investments := [invA]
  , original_highest_peak := some 100, stocks_sold := false
  , last_purchase_price := some 94, cash_balance := 0 }

/-- The state after selling the single open position of s194. -/
def sSold : SimState :=
  { failed_buys := 0, passed_buys := 1, active_investments := []
  , original_highest_peak := some 100, stocks_sold := true
  , last_purchase_price := some 94, cash_balance := 5000 }

/-- s194 with extra cash, so that a second buy can execute. -/
def sW : SimState :=
  { failed_buys := 0, passed_buys := 1, active_investments := [invA]
  , original_highest_peak := some 100, stocks_sold := false
  , last_purchase_price := some 94, cash_balance := 10000 }

def tx2 : Tx :=
  { date := "02/01/2020", low_price := 80, highest_peak := 100
  , date_obj := ⟨2, 1, 2020⟩, action := some "buy" }

/-- The state after a second buy executes from sW on tx2. -/
def s2W : SimState :=
  { failed_buys := 0, passed_buys := 2
  , active_investments := [invA, { price := 80, date := "02/01/2020", amount := 5000 }]
  , original_highest_peak := some 100, stocks_sold := false
  , last_purchase_price := some 80, cash_balance := 5000 }

/-! ### Helper lemmas about the step components -/

theorem anchorState_cash (s : SimState) (tx : Tx) :
    (anchorState s tx).cash_balance = s.cash_balance := by
  unfold anchorState; split <;> rfl

theorem anchorState_active (s : SimState) (tx : Tx) :
    (anchorState s tx).active_investments = s.active_investments := by
  unfold anchorState; split <;> rfl

theorem anchorState_failed (s : SimState) (tx : Tx) :
    (anchorState s tx).failed_buys = s.failed_buys := by
  unfold anchorState; split <;> rfl

theorem anchorState_passed (s : SimState) (tx : Tx) :
    (anchorState s tx).passed_buys = s.passed_buys := by
  unfold anchorState; split <;> rfl

theorem anchorState_of_sold (s : SimState) (tx : Tx) (h : s.stocks_sold = true) :
    anchorState s tx
      = { s with original_highest_peak := some tx.highest_peak
               , last_purchase_price := some tx.highest_peak
               , stocks_sold := false } := by
  unfold anchorState; rw [if_pos h]

theorem buyEval_active_ne (s : SimState) (tx : Tx) (a : String) (t : ℚ) (h : a ≠ "buy") :
    (buyEval s tx a t).active_investments = s.active_investments := by
  unfold buyEval; split_ifs <;> simp_all

theorem buyEval_cash_ne (s : SimState) (tx : Tx) (a : String) (t : ℚ) (h : a ≠ "buy") :
    (buyEval s tx a t).cash_balance = s.cash_balance := by
  unfold buyEval; split_ifs <;> simp_all

theorem buyEval_orig (s : SimState) (tx : Tx) (a : String) (t : ℚ) :
    (buyEval s tx a t).original_highest_peak = s.original_highest_peak := by
  unfold buyEval; split_ifs <;> rfl

theorem buyEval_sold (s : SimState) (tx : Tx) (a : String) (t : ℚ) :
    (buyEval s tx a t).stocks_sold = s.stocks_sold := by
  unfold buyEval; split_ifs <;> rfl

theorem buyEval_not_trig (s : SimState) (tx : Tx) (a : String) (t : ℚ)
    (h : ¬ tx.low_price ≤ t) : buyEval s tx a t = s := by
  unfold buyEval; rw [if_neg h]

theorem buyEval_mismatch (s : SimState) (tx : Tx) (a : String) (t : ℚ)
    (ht : tx.low_price ≤ t) (hc : INVESTMENT_PER_BUY ≤ s.cash_balance) (h : a ≠ "buy") :
    buyEval s tx a t = { s with failed_buys := s.failed_buys + 1 } := by
  unfold buyEval; rw [if_pos ht, if_pos hc, if_neg h]

theorem buyEval_buy (s : SimState) (tx : Tx) (t : ℚ)
    (ht : tx.low_price ≤ t) (hc : INVESTMENT_PER_BUY ≤ s.cash_balance) :
    buyEval s tx "buy" t
      = { s with passed_buys := s.passed_buys + 1
               , active_investments :=
                   s.active_investments
                     ++ [{ price := tx.low_price, date := tx.date, amount := INVESTMENT_PER_BUY }]
               , last_purchase_price := some tx.low_price
               , cash_balance := s.cash_balance - INVESTMENT_PER_BUY } := by
  unfold buyEval; rw [if_pos ht, if_pos hc, if_pos rfl]

theorem sellEval_not_sell (s : SimState) (a : String) (h : a ≠ "sell") :
    sellEval s a = s := by
  unfold sellEval; split
  · rfl
  · rw [if_neg h]

theorem sellEval_nil (s : SimState) (a : String) (h : s.active_investments = []) :
    sellEval s a = s := by
  unfold sellEval; rw [h]; rfl

theorem sellEval_sell (s : SimState) (last : Investment)
    (h : s.active_investments.getLast? = some last) :
    sellEval s "sell"
      = { s with active_investments := s.active_investments.dropLast
               , cash_balance := s.cash_balance + last.amount
               , stocks_sold :=
                   if s.active_investments.dropLast = [] then true else s.stocks_sold } := by
  unfold sellEval; rw [h]; exact if_pos rfl

theorem sellEval_counts (s : SimState) (a : String) :
    (sellEval s a).failed_buys = s.failed_buys ∧ (sellEval s a).passed_buys = s.passed_buys := by
  unfold sellEval
  cases s.active_investments.getLast? with
  | none => exact ⟨rfl, rfl⟩
  | some last => split_ifs <;> exact ⟨rfl, rfl⟩

theorem sellEval_orig (s : SimState) (a : String) :
    (sellEval s a).original_highest_peak = s.original_highest_peak := by
  unfold sellEval
  cases s.active_investments.getLast? with
  | none => rfl
  | some last => split_ifs <;> rfl

theorem sellEval_length_le (s : SimState) (a : String) :
    (sellEval s a).active_investments.length ≤ s.active_investments.length := by
  unfold sellEval; split
  · exact le_refl _
  · split_ifs <;> simp [List.length_dropLast]

/-- Successful steps decompose into action read, anchoring, buy and sell
evaluation. -/
theorem stepTx_ok (s : SimState) (tx : Tx) (s' : SimState) (hs : stepTx s tx = .ok s') :
    ∃ a t, tx.action = some a ∧ currentTrigger (anchorState s tx) = some t ∧
      s' = sellEval (buyEval (anchorState s tx) tx (lowerString a) t) (lowerString a) := by
  unfold stepTx at hs
  cases ha : tx.action with
  | none => rw [ha] at hs; exact absurd hs (by simp)
  | some a =>
    rw [ha] at hs
    cases ht : currentTrigger (anchorState s tx) with
    | none => rw [ht] at hs; exact absurd hs (by simp)
    | some t =>
      rw [ht] at hs
      exact ⟨a, t, rfl, rfl, (Except.ok.injEq _ _ ▸ hs).symm⟩

/-- The inductive invariant behind the cash property: cash is
nonnegative and every open investment was pushed with amount
INVESTMENT_PER_BUY. -/
def CashInv (s : SimState) : Prop :=
  0 ≤ s.cash_balance ∧ ∀ inv ∈ s.active_investments, inv.amount = INVESTMENT_PER_BUY

theorem anchorState_inv (s : SimState) (tx : Tx) (h : CashInv s) :
    CashInv (anchorState s tx) := by
  unfold CashInv at *
  rw [anchorState_cash, anchorState_active]
  exact h

theorem buyEval_inv (s : SimState) (tx : Tx) (a : String) (t : ℚ) (h : CashInv s) :
    CashInv (buyEval s tx a t) := by
  unfold buyEval
  split_ifs with h1 h2 h3
  · refine ⟨by simpa using h2, ?_⟩
    intro inv hinv
    rcases List.mem_append.mp hinv with hl | hr
    · exact h.2 inv hl
    · rw [List.mem_singleton.mp hr]
  · exact h
  · exact h
  · exact h

theorem sellEval_inv (s : SimState) (a : String) (h : CashInv s) :
    CashInv (sellEval s a) := by
  unfold sellEval
  split
  · exact h
  · rename_i last hlast
    by_cases hsell : a = "sell"
    · rw [if_pos hsell]
      constructor
      · have hmem := List.mem_of_getLast?_eq_some hlast
        have hamt := h.2 last hmem
        have hpos : (0 : ℚ) ≤ last.amount := by
          rw [hamt]; unfold INVESTMENT_PER_BUY; norm_num
        exact add_nonneg h.1 hpos
      · intro inv hinv
        exact h.2 inv ((List.dropLast_sublist _).subset hinv)
    · rw [if_neg hsell]; exact h

theorem stepTx_inv (s : SimState) (tx : Tx) (s' : SimState)
    (hs : stepTx s tx = .ok s') (h : CashInv s) : CashInv s' := by
  obtain ⟨a, t, _, _, rfl⟩ := stepTx_ok s tx s' hs
  exact sellEval_inv _ _ (buyEval_inv _ _ _ _ (anchorState_inv _ _ h))

theorem processTx_inv (o : ℕ) (s : SimState) (tx : Tx) (s' : SimState)
    (hs : processTx o s tx = .ok s') (h : CashInv s) : CashInv s' := by
  unfold processTx at hs
  split_ifs at hs
  · cases hs; exact h
  · exact stepTx_inv s tx s' hs h

theorem traceFrom_inv (o : ℕ) (txs : List Tx) :
    ∀ s, CashInv s → ∀ s' ∈ traceFrom o s txs, CashInv s' := by
  induction txs with
  | nil => intro s _ s' hs'; simp [traceFrom] at hs'
  | cons tx rest ih =>
    intro s h s' hs'
    unfold traceFrom at hs'
    revert hs'
    split
    · intro hs'; simp at hs'
    · rename_i s1 hstep
      intro hs'
      rcases List.mem_cons.mp hs' with rfl | hmem
      · exact processTx_inv o s tx s' hstep h
      · exact ih s1 (processTx_inv o s tx s1 hstep h) s' hmem

theorem initialState_inv : CashInv initialState := by
  constructor
  · unfold initialState INITIAL_CASH; norm_num
  · intro inv hinv; simp [initialState] at hinv

/-- A step that strictly grows the position stack can only be an
executed buy: the recorded action is buy, the day's low reached the
trigger, cash sufficed, and the push/debit/anchor-update all happen. -/
theorem stepTx_growth (s : SimState) (tx : Tx) (s' : SimState)
    (hs : stepTx s tx = .ok s')
    (hlen : s.active_investments.length < s'.active_investments.length) :
    ∃ a t, tx.action = some a ∧ (lowerString a) = "buy" ∧
      currentTrigger (anchorState s tx) = some t ∧ tx.low_price ≤ t ∧
      INVESTMENT_PER_BUY ≤ s.cash_balance ∧
      s'.cash_balance = s.cash_balance - INVESTMENT_PER_BUY ∧
      s'.active_investments.length = s.active_investments.length + 1 ∧
      s'.last_purchase_price = some tx.low_price := by
  obtain ⟨a, t, ha, ht, rfl⟩ := stepTx_ok s tx s' hs
  by_cases hb : (lowerString a) = "buy"
  · rw [hb] at hlen ⊢
    have hns : ("buy" : String) ≠ "sell" := by decide
    rw [sellEval_not_sell _ _ hns] at hlen ⊢
    by_cases h1 : tx.low_price ≤ t
    · by_cases h2 : INVESTMENT_PER_BUY ≤ (anchorState s tx).cash_balance
      · rw [buyEval_buy _ _ _ h1 h2] at hlen ⊢
        rw [anchorState_cash] at h2
        refine ⟨a, t, ha, hb, ht, h1, h2, ?_, ?_, rfl⟩
        · simp [anchorState_cash]
        · simp [anchorState_active]
      · exfalso
        have heq : (buyEval (anchorState s tx) tx "buy" t).active_investments
            = s.active_investments := by
          unfold buyEval
          rw [if_pos h1, if_neg h2, anchorState_active]
        rw [heq] at hlen
        exact lt_irrefl _ hlen
    · exfalso
      rw [buyEval_not_trig _ _ _ _ h1, anchorState_active] at hlen
      exact lt_irrefl _ hlen
  · exfalso
    have hb' := buyEval_active_ne (anchorState s tx) tx (lowerString a) t hb
    have hle := sellEval_length_le (buyEval (anchorState s tx) tx (lowerString a) t) (lowerString a)
    rw [hb', anchorState_active] at hle
    exact absurd hlen (not_lt.mpr hle)

/-! ### Further concrete states -/

/-- Final state of Scenario B (low 96 against trigger 95): nothing is
tallied at all. -/
def sScenB : SimState :=
  { failed_buys := 0, passed_buys := 0, active_investments := []
  , original_highest_peak := some 100, stocks_sold := false
  , last_purchase_price := some 100, cash_balance := 5000 }

/-- State after a genuine mismatch: low 94 reached trigger 95 with cash
available but the recorded action was Sell. -/
def sMis : SimState :=
  { failed_buys := 1, passed_buys := 0, active_investments := []
  , original_highest_peak := some 100, stocks_sold := false
  , last_purchase_price := some 100, cash_balance := 5000 }

/-- The anchored initial state after the first record carries peak 100:
campaign anchored at 100, nothing bought yet. -/
def sAnch : SimState :=
  { failed_buys := 0, passed_buys := 0, active_investments := []
  , original_highest_peak := some 100, stocks_sold := false
  , last_purchase_price := some 100, cash_balance := 5000 }

theorem trigger95 : triggerPrice 100 0 = 95 := by
  norm_num [triggerPrice]

theorem trigger94 : triggerPrice 94 1 = 16967 / 200 := by
  norm_num [triggerPrice]

theorem stepTx_tx94 : stepTx initialState tx94 = .ok s194 := by
  have h0 : stepTx initialState tx94
      = .ok (sellEval (buyEval sAnch tx94 "buy" (triggerPrice 100 0)) "buy") := rfl
  rw [h0, buyEval_buy sAnch tx94 (triggerPrice 100 0)
        (by rw [trigger95]; norm_num [tx94]) (by norm_num [sAnch, INVESTMENT_PER_BUY]),
      sellEval_not_sell _ _ (by decide)]
  norm_num [sAnch, s194, tx94, invA, INVESTMENT_PER_BUY, SimState.mk.injEq, Investment.mk.injEq]

theorem stepTx_tx96 : stepTx initialState tx96 = .ok sScenB := by
  have h0 : stepTx initialState tx96
      = .ok (sellEval (buyEval sAnch tx96 "buy" (triggerPrice 100 0)) "buy") := rfl
  rw [h0, buyEval_not_trig _ _ _ _ (by rw [trigger95]; norm_num [tx96]),
      sellEval_nil _ _ rfl]
  rfl

theorem stepTx_txSellLow : stepTx initialState txSellLow = .ok sMis := by
  have h0 : stepTx initialState txSellLow
      = .ok (sellEval (buyEval sAnch txSellLow "sell" (triggerPrice 100 0)) "sell") := rfl
  rw [h0, buyEval_mismatch sAnch txSellLow "sell" (triggerPrice 100 0)
        (by rw [trigger95]; norm_num [txSellLow]) (by norm_num [sAnch, INVESTMENT_PER_BUY])
        (by decide),
      sellEval_nil _ _ rfl]
  rfl

theorem stepTx_txSell : stepTx s194 txSell = .ok sSold := by
  have h0 : stepTx s194 txSell
      = .ok (sellEval (buyEval s194 txSell "sell" (triggerPrice 94 1)) "sell") := rfl
  rw [h0, buyEval_not_trig _ _ _ _ (by rw [trigger94]; norm_num [txSell]),
      sellEval_sell s194 invA rfl]
  norm_num [s194, sSold, invA, SimState.mk.injEq]

theorem stepTx_tx2 : stepTx sW tx2 = .ok s2W := by
  have h0 : stepTx sW tx2
      = .ok (sellEval (buyEval sW tx2 "buy" (triggerPrice 94 1)) "buy") := rfl
  rw [h0, buyEval_buy sW tx2 (triggerPrice 94 1)
        (by rw [trigger94]; norm_num [tx2]) (by norm_num [sW, INVESTMENT_PER_BUY]),
      sellEval_not_sell _ _ (by decide)]
  norm_num [sW, s2W, tx2, invA, INVESTMENT_PER_BUY, SimState.mk.injEq, Investment.mk.injEq]

/-- A single-row run is a single step: the window filter never skips
the first record (its distance from the start date is zero). -/
theorem runAll_single (row : RawRow) (tx : Tx) (s' : SimState)
    (hread : readTransactionLog [row] = .ok [tx])
    (hstep : stepTx initialState tx = .ok s') : runAll [row] = .ok s' := by
  unfold runAll
  rw [hread]
  have hp : processTx (toOrdinal tx.date_obj) initialState tx = stepTx initialState tx := by
    unfold processTx
    split_ifs with h
    · exfalso; omega
    · rfl
  show (match simulate [tx] with
        | Except.error e => (Except.error (RunErr.simErr e) : Except RunErr SimState)
        | Except.ok s => Except.ok s) = Except.ok s'
  unfold simulate runFrom
  rw [hp, hstep]
  rfl

/-! ### Claim theorems -/

/-- Claim C8 (confirmed).  Scenario A: on the single first-day record
with peak 100, low 94, recorded action Buy, under initial cash 5000,
investment 5000, drop step 0.05, the first trigger is 95, the run ends
with one passed buy, zero failed buys, cash 0 and one open position. -/
theorem scenarioA_single_buy :
    readTransactionLog [row94] = .ok [tx94] ∧
    currentTrigger (anchorState initialState tx94) = some 95 ∧
    runAll [row94] = .ok s194 :=
  ⟨rfl,
   by rw [show currentTrigger (anchorState initialState tx94) = some (triggerPrice 100 0)
            from rfl, trigger95],
   runAll_single row94 tx94 s194 rfl stepTx_tx94⟩

/-- Claim C9 (confirmed).  An empty normalized sequence (here: the one
raw row is rejected for its empty low price) makes the simulator fail
on transactions[0] before processing any record; it does not produce a
zero tally. -/
theorem empty_log_crashes :
    simulate [] = .error .emptyLog ∧
    readTransactionLog [rowEmptyLow] = .ok [] ∧
    runAll [rowEmptyLow] = .error (.simErr .emptyLog) :=
  ⟨rfl, rfl, rfl⟩

/-- Claim C10 (confirmed).  The normalizer keeps a row that has no
action column at all, but the simulator unconditionally reads the
action of every processed record, so such a dataset crashes the run
instead of producing decisions. -/
theorem missing_action_crashes :
    (readTransactionLog [rowNoAct] = .ok [txNoAct] ∧ txNoAct.action = none) ∧
    (∀ s tx, tx.action = none → stepTx s tx = .error .missingAction) ∧
    runAll [rowNoAct] = .error (.simErr .missingAction) := by
  refine ⟨⟨rfl, rfl⟩, ?_, rfl⟩
  intro s tx h
  unfold stepTx
  rw [h]

/-- Witness for C10: the kept action-less record crashes the very first
step. -/
theorem missing_action_crashes_witness :
    stepTx initialState txNoAct = .error .missingAction :=
  missing_action_crashes.2.1 initialState txNoAct rfl

/-- Counterexample to claim C2: low 96 is above the trigger 95 and the
recorded action is Buy, yet the run tallies no failed buy (and no
passed buy): the simulator never compares the recorded action at all
when the low price misses the trigger. -/
theorem recorded_buy_above_trigger_untallied :
    runAll [row96] = .ok sScenB ∧ sScenB.failed_buys = 0 ∧ sScenB.passed_buys = 0 :=
  ⟨runAll_single row96 tx96 sScenB rfl stepTx_tx96, rfl, rfl⟩

/-- Claim C2 as amended: a mismatch is tallied in one direction only.
When the low price misses the trigger, the tallies never move, whatever
the recorded action; a failed buy is recorded exactly when the trigger
is reached, cash suffices and the recorded action is not buy. -/
theorem mismatch_tally :
    (∀ s tx s' t, stepTx s tx = .ok s' →
        currentTrigger (anchorState s tx) = some t → t < tx.low_price →
        s'.failed_buys = s.failed_buys ∧ s'.passed_buys = s.passed_buys) ∧
    (∀ s tx s' a t, tx.action = some a → (lowerString a) ≠ "buy" →
        stepTx s tx = .ok s' →
        currentTrigger (anchorState s tx) = some t → tx.low_price ≤ t →
        INVESTMENT_PER_BUY ≤ s.cash_balance →
        s'.failed_buys = s.failed_buys + 1) := by
  constructor
  · intro s tx s' t hs ht hlt
    obtain ⟨a, t', ha, ht', rfl⟩ := stepTx_ok s tx s' hs
    rw [ht] at ht'
    obtain rfl : t = t' := Option.some.inj ht'
    rw [buyEval_not_trig _ _ _ _ (not_le.mpr hlt)]
    rw [(sellEval_counts _ _).1, (sellEval_counts _ _).2]
    exact ⟨anchorState_failed s tx, anchorState_passed s tx⟩
  · intro s tx s' a t ha hb hs ht hle hc
    obtain ⟨a', t', ha', ht', rfl⟩ := stepTx_ok s tx s' hs
    rw [ha] at ha'
    obtain rfl : a = a' := Option.some.inj ha'
    rw [ht] at ht'
    obtain rfl : t = t' := Option.some.inj ht'
    have hc' : INVESTMENT_PER_BUY ≤ (anchorState s tx).cash_balance := by
      rw [anchorState_cash]; exact hc
    rw [buyEval_mismatch _ _ _ _ hle hc' hb, (sellEval_counts _ _).1]
    simp [anchorState_failed]

/-- Witness for the amended C2: Scenario B leaves both tallies at zero,
while a real missed opportunity (low 94, trigger 95, action Sell)
tallies one failed buy. -/
theorem mismatch_tally_witness :
    (sScenB.failed_buys = initialState.failed_buys ∧
     sScenB.passed_buys = initialState.passed_buys) ∧
    sMis.failed_buys = initialState.failed_buys + 1 :=
  ⟨mismatch_tally.1 initialState tx96 sScenB 95 stepTx_tx96
     (by rw [show currentTrigger (anchorState initialState tx96) = some (triggerPrice 100 0)
               from rfl, trigger95])
     (by norm_num [tx96]),
   mismatch_tally.2 initialState txSellLow sMis "Sell" 95 rfl (by decide) stepTx_txSellLow
     (by rw [show currentTrigger (anchorState initialState txSellLow) = some (triggerPrice 100 0)
               from rfl, trigger95])
     (by norm_num [txSellLow]) (by norm_num [initialState, INITIAL_CASH, INVESTMENT_PER_BUY])⟩

/-- Counterexample to claim C3: non-numeric text in the low price
column does not skip the row; float raises an uncaught ValueError, so
the whole run aborts and the following well-formed row is lost. -/
theorem coercion_aborts_run :
    readTransactionLog [rowBad, row94] = .error .numericCoercion :=
  rfl

/-- Claim C3 as amended: a missing or empty numeric cell (and an
unparsable date) skips the row only, but non-numeric text in a present,
non-empty numeric cell aborts the whole run with an uncaught numeric
coercion error. -/
theorem coercion_policy :
    (∀ row rest, rowFind row "low price" = some (some "") →
        readTransactionLog (row :: rest) = readTransactionLog rest) ∧
    (∀ row rest ls ps, (rowFind row "date").isSome →
        rowFind row "low price" = some (some ls) → ls ≠ "" →
        rowFind row "highest peak" = some (some ps) → ps ≠ "" →
        parseFloat? ls = none →
        readTransactionLog (row :: rest) = .error .numericCoercion) := by
  constructor
  · intro row rest hlow
    have hrow : readRow row = .ok none := by
      unfold readRow
      cases hd : rowFind row "date" with
      | none => rfl
      | some dv => rw [hlow]; simp
    simp only [readTransactionLog, hrow]
  · intro row rest ls ps hd hlow hne hpk hpne hpf
    obtain ⟨dv, hdv⟩ := Option.isSome_iff_exists.mp hd
    have hrow : readRow row = .error .numericCoercion := by
      unfold readRow
      rw [hdv, hlow, hpk]
      simp [hne, hpne, hpf]
    unfold readTransactionLog
    rw [hrow]

/-- Witness for the amended C3: the empty-low row is skipped and the
run continues; the textual low aborts the run. -/
theorem coercion_policy_witness :
    readTransactionLog [rowEmptyLow] = readTransactionLog [] ∧
    readTransactionLog [rowBad] = .error .numericCoercion :=
  ⟨coercion_policy.1 rowEmptyLow [] rfl,
   coercion_policy.2 rowBad [] "abc" "100" rfl rfl (by decide) rfl (by decide) rfl⟩

/-- Counterexample to claim C7: the normalizer keeps rows in input
order without checking dates or signs; here the two kept records have
strictly decreasing dates and the second record has a negative low
price. -/
theorem normalizer_no_validation :
    readTransactionLog [rowLater, rowNeg] = .ok [txLater, txNeg] ∧
    toOrdinal txNeg.date_obj < toOrdinal txLater.date_obj ∧
    txNeg.low_price < 0 :=
  ⟨rfl, by decide, by decide⟩

/-- Claim C7 as amended: the normalizer only filters and parses; every
record it emits is the successful parse of some input row, and no date
monotonicity or positivity validation is performed (the counterexample
shows both can fail on the output). -/
theorem normalizer_provenance (raws : List RawRow) (l : List Tx)
    (h : readTransactionLog raws = .ok l) :
    ∀ tx ∈ l, ∃ row ∈ raws, readRow row = .ok (some tx) := by
  induction raws generalizing l with
  | nil =>
    intro tx htx
    unfold readTransactionLog at h
    obtain rfl : ([] : List Tx) = l := Except.ok.inj h
    simp at htx
  | cons row rest ih =>
    intro tx htx
    unfold readTransactionLog at h
    cases hrow : readRow row with
    | error e => rw [hrow] at h; exact absurd h (by simp)
    | ok o =>
      cases o with
      | none =>
        rw [hrow] at h
        obtain ⟨r, hr, hrr⟩ := ih l h tx htx
        exact ⟨r, List.mem_cons_of_mem _ hr, hrr⟩
      | some tx0 =>
        rw [hrow] at h
        cases hrest : readTransactionLog rest with
        | error e => rw [hrest] at h; exact absurd h (by simp)
        | ok txs =>
          rw [hrest] at h
          obtain rfl : tx0 :: txs = l := Except.ok.inj h
          rcases List.mem_cons.mp htx with rfl | hm
          · exact ⟨row, List.mem_cons_self row rest, hrow⟩
          · obtain ⟨r, hr, hrr⟩ := ih txs hrest tx hm
            exact ⟨r, List.mem_cons_of_mem _ hr, hrr⟩

/-- Witness for the amended C7: the negative-low record of the
counterexample input is the parse of its input row. -/
theorem normalizer_provenance_witness :
    ∃ row ∈ [rowLater, rowNeg], readRow row = .ok (some txNeg) :=
  normalizer_provenance [rowLater, rowNeg] [txLater, txNeg] rfl txNeg (by decide)

/-- The window filter never skips a record dated on the start date
itself. -/
theorem processTx_self (s : SimState) (tx : Tx) :
    processTx (toOrdinal tx.date_obj) s tx = stepTx s tx := by
  unfold processTx
  split_ifs with h
  · exfalso; omega
  · rfl

theorem simTrace_tx94 : simTrace [tx94] = [s194] := by
  unfold simTrace traceFrom
  rw [processTx_self, stepTx_tx94]
  rfl

/-- Counterexample to claim C1: a reachable campaign state with one
open position and anchored reference peak 100 computes the next trigger
from the last purchase price (94), giving 84.835, not the claimed
reference_peak * (1-drop_step)^(N+1) = 90.25. -/
theorem trigger_not_peak_anchored :
    runAll [row94] = .ok s194 ∧ s194.active_investments.length = 1 ∧
    s194.original_highest_peak = some 100 ∧
    currentTrigger s194 = some (triggerPrice 94 1) ∧
    triggerPrice 94 1 ≠ 100 * ((1 : ℚ) - 5 / 100) ^ (1 + 1) := by
  refine ⟨runAll_single row94 tx94 s194 rfl stepTx_tx94, rfl, rfl, rfl, ?_⟩
  rw [trigger94]; norm_num

/-- Claim C1 as amended: the code anchors the trigger to the running
last purchase price, trigger = last_purchase_price * (1-0.05)^(N+1).
At the start of a campaign (no position open yet) the anchor is the
reference peak, so the first trigger is peak * 0.95; and across an
executed buy from a positive trigger the next trigger strictly
decreases. -/
theorem trigger_anchoring :
    (∀ s tx, s.stocks_sold = true → s.active_investments = [] →
        currentTrigger (anchorState s tx) = some (tx.highest_peak * (0.95 : ℚ))) ∧
    (∀ s tx s' t t', stepTx s tx = .ok s' →
        currentTrigger (anchorState s tx) = some t → 0 < t →
        s.active_investments.length < s'.active_investments.length →
        currentTrigger s' = some t' → t' < t) := by
  constructor
  · intro s tx hsold hnil
    rw [anchorState_of_sold s tx hsold]
    unfold currentTrigger triggerPrice
    simp [hnil]
  · intro s tx s' t t' hs ht hpos hlen ht'
    obtain ⟨a, t0, ha, hb, ht0, hle, hc, hcash, hlen1, hlast⟩ := stepTx_growth s tx s' hs hlen
    rw [ht] at ht0
    obtain rfl : t = t0 := Option.some.inj ht0
    unfold currentTrigger at ht'
    rw [hlast, hlen1] at ht'
    simp only [Option.map_some'] at ht'
    obtain rfl : t' = triggerPrice tx.low_price (s.active_investments.length + 1) :=
      (Option.some.inj ht').symm
    unfold triggerPrice
    calc tx.low_price * (0.95 : ℚ) ^ (s.active_investments.length + 1 + 1)
        ≤ t * (0.95 : ℚ) ^ (s.active_investments.length + 1 + 1) := by
          exact mul_le_mul_of_nonneg_right hle (pow_nonneg (by norm_num) _)
      _ < t := by
          exact mul_lt_of_lt_one_right hpos
            (pow_lt_one₀ (by norm_num) (by norm_num) (by omega))

/-- Witness for the amended C1: the first trigger of the run is
100 * 0.95, and the trigger after the second buy (80 * 0.95 ^ 3) is
strictly below the trigger that admitted it (94 * 0.95 ^ 2). -/
theorem trigger_anchoring_witness :
    currentTrigger (anchorState initialState tx94) = some ((100 : ℚ) * (0.95 : ℚ)) ∧
    triggerPrice 80 2 < triggerPrice 94 1 :=
  ⟨trigger_anchoring.1 initialState tx94 rfl rfl,
   trigger_anchoring.2 sW tx2 s2W (triggerPrice 94 1) (triggerPrice 80 2) stepTx_tx2 rfl
     (by rw [trigger94]; norm_num) (by decide) rfl⟩

/-- Claim C4 (confirmed).  After every processed record of any input
sequence the cash balance is nonnegative, and a step that opens a
position can only do so with cash at least INVESTMENT_PER_BUY before
the debit, debiting exactly that amount. -/
theorem cash_never_negative :
    (∀ txs s', s' ∈ simTrace txs → 0 ≤ s'.cash_balance) ∧
    (∀ s tx s', stepTx s tx = .ok s' →
        s.active_investments.length < s'.active_investments.length →
        INVESTMENT_PER_BUY ≤ s.cash_balance ∧
        s'.cash_balance = s.cash_balance - INVESTMENT_PER_BUY) := by
  constructor
  · intro txs s' hmem
    unfold simTrace at hmem
    revert hmem
    split
    · intro hmem; simp at hmem
    · intro hmem
      exact (traceFrom_inv _ _ initialState initialState_inv s' hmem).1
  · intro s tx s' hs hlen
    obtain ⟨a, t, ha, hb, ht, hle, hc, hcash, hlen1, hlast⟩ := stepTx_growth s tx s' hs hlen
    exact ⟨hc, hcash⟩

/-- Witness for C4: the Scenario A run stays nonnegative (final cash
0), and its one buy was guarded by 5000 ≤ 5000 and debited exactly
5000. -/
theorem cash_never_negative_witness :
    0 ≤ s194.cash_balance ∧
    (INVESTMENT_PER_BUY ≤ initialState.cash_balance ∧
     s194.cash_balance = initialState.cash_balance - INVESTMENT_PER_BUY) :=
  ⟨cash_never_negative.1 [tx94] s194
     (by rw [simTrace_tx94]; exact List.mem_singleton_self s194),
   cash_never_negative.2 initialState tx94 s194 stepTx_tx94 (by decide)⟩

/-- Claim C5 (confirmed).  A record whose action lowercases to sell
pops exactly the most recently appended position (LIFO) and credits
back exactly that position's amount; with no open position the stack
and the cash are left unchanged.  The buy evaluation on the same record
cannot execute (its action is not buy), so the popped position is taken
from the record's pre-step stack. -/
theorem sell_pops_lifo :
    ∀ s tx s' a, tx.action = some a → lowerString a = "sell" → stepTx s tx = .ok s' →
      (s.active_investments = [] →
         s'.active_investments = [] ∧ s'.cash_balance = s.cash_balance) ∧
      (∀ last, s.active_investments.getLast? = some last →
         s'.active_investments = s.active_investments.dropLast ∧
         s'.cash_balance = s.cash_balance + last.amount) := by
  intro s tx s' a ha hsell hs
  obtain ⟨a', t, ha', ht, rfl⟩ := stepTx_ok s tx s' hs
  rw [ha] at ha'
  obtain rfl : a = a' := Option.some.inj ha'
  rw [hsell]
  have hnb : lowerString a ≠ "buy" := by rw [hsell]; decide
  have hba := buyEval_active_ne (anchorState s tx) tx (lowerString a) t hnb
  have hbc := buyEval_cash_ne (anchorState s tx) tx (lowerString a) t hnb
  rw [hsell] at hba hbc
  constructor
  · intro hnil
    have hnil' : (buyEval (anchorState s tx) tx "sell" t).active_investments = [] := by
      rw [hba, anchorState_active]; exact hnil
    rw [sellEval_nil _ _ hnil']
    exact ⟨hnil', by rw [hbc, anchorState_cash]⟩
  · intro last hlast
    have hlast' : (buyEval (anchorState s tx) tx "sell" t).active_investments.getLast?
        = some last := by
      rw [hba, anchorState_active]; exact hlast
    rw [sellEval_sell _ last hlast']
    constructor
    · show (buyEval (anchorState s tx) tx "sell" t).active_investments.dropLast
          = s.active_investments.dropLast
      rw [hba, anchorState_active]
    · show (buyEval (anchorState s tx) tx "sell" t).cash_balance + last.amount
          = s.cash_balance + last.amount
      rw [hbc, anchorState_cash]

/-- Witness for C5: selling out of the one-position state pops that
position and credits its 5000 back. -/
theorem sell_pops_lifo_witness :
    sSold.active_investments = s194.active_investments.dropLast ∧
    sSold.cash_balance = s194.cash_balance + invA.amount :=
  (sell_pops_lifo s194 txSell sSold "Sell" rfl rfl stepTx_txSell).2 invA rfl

/-- Claim C6 (confirmed).  When the previous record left no open
position (or the run just started), the next processed record anchors
the reference peak to its own peak value — whatever anchored the
previous campaign — and clears the stocks_sold flag (campaign
active). -/
theorem campaign_reanchors :
    ∀ s tx s', s.stocks_sold = true → s.active_investments = [] →
      stepTx s tx = .ok s' →
      s'.original_highest_peak = some tx.highest_peak ∧ s'.stocks_sold = false := by
  intro s tx s' hsold hnil hs
  obtain ⟨a, t, ha, ht, rfl⟩ := stepTx_ok s tx s' hs
  have hanch := anchorState_of_sold s tx hsold
  by_cases hsell : lowerString a = "sell"
  · have hnb : lowerString a ≠ "buy" := by rw [hsell]; decide
    have hnil' : (buyEval (anchorState s tx) tx (lowerString a) t).active_investments
        = [] := by
      rw [buyEval_active_ne _ _ _ _ hnb, anchorState_active]; exact hnil
    rw [sellEval_nil _ _ hnil']
    constructor
    · rw [buyEval_orig, hanch]
    · rw [buyEval_sold, hanch]
  · rw [sellEval_not_sell _ _ hsell]
    constructor
    · rw [buyEval_orig, hanch]
    · rw [buyEval_sold, hanch]

/-- Witness for C6: the first record anchors the peak to its own 100
and activates the campaign. -/
theorem campaign_reanchors_witness :
    s194.original_highest_peak = some tx94.highest_peak ∧ s194.stocks_sold = false :=
  campaign_reanchors initialState tx94 s194 rfl rfl stepTx_tx94

end Finance
